import Mathlib

/-!
Shallow embedding of the crowd-management capture/inference core
(`src/backend/detect.py` and `src/backend/camera.py`) and proofs of the
specification's claims about it.

Conventions of the embedding:
* Python/NumPy floating-point values that may be NaN or infinite are
  modelled by `FVal` (a rational number or one of the three non-finite
  values); exact rational arithmetic stands in for float arithmetic.
* Fallible operations (Python exceptions) are modelled with `Except Unit`;
  a `try/except` block is a `match` on that result.
* The OpenCV model, the camera devices and the environment's behaviour in
  one loop cycle are inputs to the embedded functions (the code's calls
  into cv2 are the points where these inputs are consumed).
-/

namespace Crowd

/-- Decidable equality for `Except` results (used to evaluate the embedded
functions on concrete inputs). -/
instance {ε α : Type} [DecidableEq ε] [DecidableEq α] :
    DecidableEq (Except ε α) := fun a b =>
  match a, b with
  | .error e, .error f =>
    if h : e = f then .isTrue (congrArg Except.error h)
    else .isFalse (fun k => h (Except.error.inj k))
  | .ok x, .ok y =>
    if h : x = y then .isTrue (congrArg Except.ok h)
    else .isFalse (fun k => h (Except.ok.inj k))
  | .error _, .ok _ => .isFalse (fun k => Except.noConfusion k)
  | .ok _, .error _ => .isFalse (fun k => Except.noConfusion k)

/-- A floating-point value as produced by the model / NumPy: either a finite
value (modelled exactly as a rational) or one of NaN, +inf, -inf. -/
inductive FVal where
  | nan
  | posinf
  | neginf
  | fin (q : ℚ)
deriving DecidableEq, Repr

/-- Multiplication of a float value by a natural number (the frame width or
height), as in `detections[0, 0, i, 3:7] * np.array([w, h, w, h])`.
IEEE: `inf * 0 = nan`, `nan * n = nan`. -/
def FVal.scaleN (v : FVal) (n : Nat) : FVal :=
  match v with
  | .fin q => .fin (q * n)
  | .nan => .nan
  | .posinf => if n = 0 then .nan else .posinf
  | .neginf => if n = 0 then .nan else .neginf

/-- `np.nan_to_num(·, nan=0, posinf=0, neginf=0)`: non-finite values are
replaced by 0, finite values kept. -/
def FVal.toNum0 : FVal → ℚ
  | .fin q => q
  | _ => 0

/-- The float comparison `v > t` against a finite threshold `t`
(line 92 of detect.py). IEEE: `nan > t` is false, `+inf > t` is true. -/
def FVal.gtQ (v : FVal) (t : ℚ) : Bool :=
  match v with
  | .fin q => t < q
  | .posinf => true
  | _ => false

/-- Truncation toward zero of a rational, as Python's `int(float)`. -/
def ratTrunc (q : ℚ) : Int := if 0 ≤ q then ⌊q⌋ else ⌈q⌉

/-- Python's `int(x)` on a float `x`: truncates a finite value toward zero,
raises (`ValueError`/`OverflowError`) on NaN or an infinity. -/
def FVal.toIntTrunc : FVal → Except Unit Int
  | .fin q => .ok (ratTrunc q)
  | _ => .error ()

/-- The `CLASSES` list of detect.py (MobileNet-SSD class names). -/
def CLASSES : List String :=
  ["background", "aeroplane", "bicycle", "bird", "boat",
   "bottle", "bus", "car", "cat", "chair", "cow", "diningtable",
   "dog", "horse", "motorbike", "person", "pottedplant", "sheep",
   "sofa", "train", "tvmonitor"]

/-- Python list subscription `xs[i]`: a non-negative index is looked up
directly, a negative index counts from the end (`xs[len + i]`); an index out
of range on either side raises `IndexError`. -/
def pyGet (xs : List String) (i : Int) : Except Unit String :=
  if 0 ≤ i then
    if h : i.toNat < xs.length then .ok (xs.get ⟨i.toNat, h⟩) else .error ()
  else
    let j : Int := (xs.length : Int) + i
    if h : 0 ≤ j ∧ j.toNat < xs.length then .ok (xs.get ⟨j.toNat, h.2⟩)
    else .error ()

/-- A detection's bounding box, pixel coordinates (detect.py lines 112-117). -/
structure BBox where
  x1 : Nat
  y1 : Nat
  x2 : Nat
  y2 : Nat
deriving DecidableEq, Repr

/-- One entry of the returned `detections_list` (detect.py lines 110-118).
The stored confidence is the raw model confidence (`float(confidence)`). -/
structure Detection where
  confidence : FVal
  bbox : BBox
deriving DecidableEq, Repr

/-- A frame: its pixel dimensions plus what has been drawn onto it.
`marks` records the rectangles drawn by `cv2.rectangle`, `labels` the anchor
points of the text labels drawn by `cv2.putText` (content abstracted). -/
structure Frame where
  height : Nat
  width : Nat
  marks : List BBox := []
  labels : List (Nat × Nat) := []
deriving DecidableEq, Repr

/-- One raw candidate row of the model output tensor `detections[0,0,i,:]`:
slot 1 is the class index, slot 2 the confidence, slots 3..6 the normalized
box corners. All are raw floats, so any of them may be non-finite. -/
structure Candidate where
  classSlot : FVal
  confidence : FVal
  b0 : FVal
  b1 : FVal
  b2 : FVal
  b3 : FVal
deriving DecidableEq, Repr

/-- `int(max(0, min(bound - 1, q)))` of detect.py lines 104-107: clamp the
(already sanitized) coordinate into `[0, bound-1]` then truncate to an
integer (the clamped value is non-negative, so truncation is a floor). -/
def clipCoord (bound : Nat) (q : ℚ) : Nat :=
  (⌊max 0 (min ((bound : ℚ) - 1) q)⌋).toNat

/-- Drawing of one accepted detection when `draw_boxes` is set
(detect.py lines 121-129): the rectangle, and the label anchored at
`(startX, y)` where `y = startY - 15 if startY - 15 > 15 else startY + 15`. -/
def drawDetection (f : Frame) (bb : BBox) : Frame :=
  let y := if 30 < bb.y1 then bb.y1 - 15 else bb.y1 + 15
  { f with marks := f.marks ++ [bb], labels := f.labels ++ [(bb.x1, y)] }

/-- Processing of one candidate (body of the loop at detect.py lines 89-129)
acting on the accumulator `(count, detections_list, annotated_frame)`.
`.error` models a Python exception escaping the loop body (`int()` on a
non-finite class slot, or `IndexError` from a class index below `-len`). -/
def processCandidate (w h : Nat) (threshold : ℚ) (draw : Bool)
    (acc : Nat × List Detection × Frame) (c : Candidate) :
    Except Unit (Nat × List Detection × Frame) :=
  if c.confidence.gtQ threshold then
    match c.classSlot.toIntTrunc with
    | .error e => .error e
    | .ok idx =>
      if idx < (CLASSES.length : Int) then
        match pyGet CLASSES idx with
        | .error e => .error e
        | .ok cls =>
          if cls = "person" then
            let bx0 := (c.b0.scaleN w).toNum0
            let bx1 := (c.b1.scaleN h).toNum0
            let bx2 := (c.b2.scaleN w).toNum0
            let bx3 := (c.b3.scaleN h).toNum0
            let bb : BBox :=
              ⟨clipCoord w bx0, clipCoord h bx1, clipCoord w bx2, clipCoord h bx3⟩
            let d : Detection := ⟨c.confidence, bb⟩
            .ok (acc.1 + 1, acc.2.1 ++ [d],
                 if draw then drawDetection acc.2.2 bb else acc.2.2)
          else .ok acc
      else .ok acc
  else .ok acc

/-- The whole candidate loop, in tensor order. -/
def processAll (w h : Nat) (threshold : ℚ) (draw : Bool)
    (acc : Nat × List Detection × Frame) :
    List Candidate → Except Unit (Nat × List Detection × Frame)
  | [] => .ok acc
  | c :: cs =>
    match processCandidate w h threshold draw acc c with
    | .error e => .error e
    | .ok acc2 => processAll w h threshold draw acc2 cs

/-- `detect_people(frame, draw_boxes, confidence_threshold)` of detect.py.
The embedding makes the external events of one call explicit inputs:
`modelLoaded` is the `model_loaded` flag on entry, `reloadOk` whether
`load_model()` would succeed now, and `forward` the outcome of blob
construction + `net.forward()` (`.error` = an exception was raised there,
`.ok cands` = the candidate rows produced). The surrounding
`try/except Exception` converts every exception into `(0, [], frame)`. -/
def detect_people (frame : Frame) (draw_boxes : Bool) (threshold : ℚ)
    (modelLoaded reloadOk : Bool) (forward : Except Unit (List Candidate)) :
    Nat × List Detection × Frame :=
  if modelLoaded = false ∧ reloadOk = false then (0, [], frame)
  else
    match forward with
    | .error _ => (0, [], frame)
    | .ok cands =>
      match processAll frame.width frame.height threshold draw_boxes
          (0, [], frame) cands with
      | .error _ => (0, [], frame)
      | .ok r => r

/-! ### camera.py: FrameSource initialization -/

/-- The configured camera identifier, after the `int(self.camera_source)`
parse attempt of camera.py line 46: either it parses as an integer device
index, or it is kept as a path/URL string (the `ValueError` branch). -/
inductive CamSource where
  | index (n : Int)
  | url (s : String)
deriving DecidableEq, Repr

/-- Which device a `cv2.VideoCapture` object is bound to. -/
inductive CamDev where
  | index (n : Int)
  | url (s : String)
deriving DecidableEq, Repr

/-- Behaviour of the machine's camera devices during one attempt:
whether `VideoCapture(i).isOpened()`, whether the test read at index `i`
yields a frame, and whether a path/URL opens. -/
structure DeviceWorld where
  opens : Int → Bool
  readOk : Int → Bool
  urlOpens : String → Bool

/-- The `self.cap` field: `None`, or a `VideoCapture` object (which reports
`isOpened()`; a released or failed capture reports `false`). -/
inductive CapState where
  | noCap
  | cap (opened : Bool) (dev : CamDev)
deriving DecidableEq, Repr

/-- `self.cap is not None and self.cap.isOpened()`. -/
def CapState.isOpened : CapState → Bool
  | .noCap => false
  | .cap b _ => b

/-- The `for index in [camera_index, 0, 1, 2]` loop of camera.py lines
48-68: bind `self.cap` to each candidate in turn; an index that opens and
whose test read succeeds wins; one that opens but cannot read is released
(`opened := false`) and the loop continues. Falls off the loop with
`False`, `self.cap` left at the last attempted capture. -/
def tryIndices (world : DeviceWorld) : List Int → CapState → Bool × CapState
  | [], cap => (false, cap)
  | i :: rest, _ =>
    if world.opens i then
      if world.readOk i then (true, .cap true (.index i))
      else tryIndices world rest (.cap false (.index i))
    else tryIndices world rest (.cap false (.index i))

/-- `CameraManager.initialize_camera` (camera.py lines 34-80), returning
`(result, new self.cap)`. -/
def initialize_camera (cloud : Bool) (world : DeviceWorld) (src : CamSource)
    (cap : CapState) : Bool × CapState :=
  if cloud then (true, cap)
  else if cap.isOpened then (true, cap)
  else
    match src with
    | .index n => tryIndices world [n, 0, 1, 2] cap
    | .url s => (world.urlOpens s, .cap (world.urlOpens s) (.url s))

/-! ### camera.py: shared state and the capture loop -/

/-- The mutex-guarded shared detection state (camera.py lines 25-27). -/
structure Shared where
  latest_count : Nat
  latest_frame : Option Frame
  latest_detections : List Detection
deriving DecidableEq, Repr

/-- The shared state at `CameraManager.__init__`. -/
def initShared : Shared := { latest_count := 0, latest_frame := none, latest_detections := [] }

/-- The mock frame of cloud mode (camera.py lines 108-112):
`np.zeros((480, 640, 3))`, with the "CLOUD MODE" text drawn at `(120, 240)`
when cv2 is importable. -/
def mockFrame (cvAvail : Bool) : Frame :=
  { height := 480, width := 640, marks := [],
    labels := if cvAvail then [(120, 240)] else [] }

/-- The external events consumed by one iteration of `_run_capture`:
the degraded-mode flags (`CLOUD_MODE = cloudFlag or not cvAvail`,
camera.py line 18), the device world seen by `initialize_camera`, the
outcome of `self.cap.read()`, the detection engine's per-call events
(as in `detect_people`), whether the `detect_people` call itself raised
into the worker's `try` (camera.py lines 136-145), and the configured
confidence threshold and FPS. -/
structure CycleEnv where
  cloudFlag : Bool
  cvAvail : Bool
  world : DeviceWorld
  src : CamSource
  readResult : Option Frame
  detectRaises : Bool
  modelLoaded : Bool
  reloadOk : Bool
  forward : Except Unit (List Candidate)
  threshold : ℚ
  fps : ℚ

/-- `CLOUD_MODE` (camera.py line 18). -/
def CycleEnv.cloud (e : CycleEnv) : Bool := e.cloudFlag || !e.cvAvail

/-- Outcome of one pass through the `while` body of `_run_capture`:
either the loop exited (the `while` condition saw the stop event), or it
continues with a new capture handle, a new shared state, and the duration
of the `time.sleep` it performed. -/
inductive StepResult where
  | exited
  | continued (cap : CapState) (s : Shared) (sleepSecs : ℚ)
deriving DecidableEq, Repr

/-- One iteration of `CameraManager._run_capture` (camera.py lines
103-148), from the `while not self.stop_event.is_set()` test through the
trailing sleep. -/
def runCaptureStep (stopSet : Bool) (env : CycleEnv) (cap : CapState)
    (s : Shared) : StepResult :=
  if stopSet then .exited
  else if env.cloud then
    .continued cap
      { latest_count := 0, latest_frame := some (mockFrame env.cvAvail),
        latest_detections := [] } 1
  else
    let ini :=
      if cap.isOpened then (true, cap)
      else initialize_camera env.cloud env.world env.src cap
    if ini.1 = false then .continued ini.2 s 1
    else
      match env.readResult with
      | none => .continued .noCap s 1
      | some frame =>
        if env.detectRaises then .continued ini.2 s (1 / env.fps)
        else
          let r := detect_people frame true env.threshold env.modelLoaded
            env.reloadOk env.forward
          .continued ini.2
            { latest_count := r.1, latest_frame := some r.2.2,
              latest_detections := r.2.1 } (1 / env.fps)

/-- `n` further iterations of the loop starting at cycle number `i`, with
per-cycle stop-signal readings `stops` and environments `envs`. `none`
means the loop exited within those iterations; `some` carries the live
loop's capture handle and shared state. -/
def loopRunFrom (stops : Nat → Bool) (envs : Nat → CycleEnv) :
    Nat → Nat → CapState → Shared → Option (CapState × Shared)
  | _, 0, cap, s => some (cap, s)
  | i, n + 1, cap, s =>
    match runCaptureStep (stops i) (envs i) cap s with
    | .exited => none
    | .continued cap2 s2 _ => loopRunFrom stops envs (i + 1) n cap2 s2

/-! ### camera.py: the frame-stream generator -/

/-- The multipart segment yielded per encoded frame (camera.py lines
199-200). -/
def streamChunk (body : String) : String :=
  "--frame\r\nContent-Type: image/jpeg\r\n\r\n" ++ body ++ "\r\n"

/-- What one iteration of `generate_frames` does after the auto-start
check: wait (no frame yet, camera.py lines 185-187), wait (encode failed,
lines 192-194), or yield one chunk; each records the sleep performed. -/
inductive StreamAct where
  | waitNoFrame (sleepSecs : ℚ)
  | waitEncodeFail (sleepSecs : ℚ)
  | emit (chunk : String) (sleepSecs : ℚ)
deriving DecidableEq, Repr

/-- One iteration of `CameraManager.generate_frames` (camera.py lines
175-203). `encode` is `cv2.imencode`, returning `none` when `ret` is
false. The returned `Bool` records whether the iteration called
`self.start()` (auto-start when not running). -/
def streamStep (is_running : Bool) (s : Shared)
    (encode : Frame → Option String) (fps : ℚ) : Bool × StreamAct :=
  let starts := !is_running
  match s.latest_frame with
  | none => (starts, .waitNoFrame (1 / 10))
  | some f =>
    match encode f with
    | none => (starts, .waitEncodeFail (1 / 10))
    | some body => (starts, .emit (streamChunk body) (1 / fps))

/-- The chunks emitted by one stream action. -/
def streamEmits : StreamAct → List String
  | .emit c _ => [c]
  | _ => []

/-- All chunks emitted during the first `n` iterations of the generator,
where `runFlags k` and `shareds k` are the running flag and shared state
the `k`-th iteration observes. -/
def streamRun (runFlags : Nat → Bool) (shareds : Nat → Shared)
    (encode : Frame → Option String) (fps : ℚ) : Nat → List String
  | 0 => []
  | n + 1 =>
    streamRun runFlags shareds encode fps n ++
      streamEmits (streamStep (runFlags n) (shareds n) encode fps).2

/-! ### Lock-level interleaving model of the shared state

`_run_capture` publishes the three fields of the shared state inside one
`with self.lock` block (camera.py lines 140-143); each getter acquires the
same lock, reads one field and releases (lines 156-169). The model below
makes the three field writes individual steps of a writer thread inside
its critical section, and each getter one atomic lock-protected read (a
reader holding the lock only reads, so collapsing its acquire/read/release
into one step loses no interleaving). A trace is any action list; an
action not enabled (lock held) cannot execute. -/

/-- The writer's position inside its publish critical section. -/
inductive WPC where
  | outside
  | atCount
  | atFrame
  | atDets
  | atEnd
deriving DecidableEq, Repr

/-- One getter observation: the value returned and the whole shared memory
at the moment of the (lock-protected) read. -/
inductive Obs where
  | count (v : Nat) (snap : Shared)
  | frame (v : Option Frame) (snap : Shared)
  | dets (v : List Detection) (snap : Shared)
deriving DecidableEq, Repr

/-- Global state of the writer/readers system: the shared memory, the
lock, the writer's program counter and pending cycle result, the list of
completed publications (the initial zero state counts as published), and
the observations made so far by getter calls. -/
structure CSys where
  mem : Shared
  lockFree : Bool
  wpc : WPC
  pending : Shared
  published : List Shared
  obs : List Obs
deriving DecidableEq, Repr

/-- The system right after `CameraManager.__init__`. -/
def initCSys : CSys :=
  { mem := initShared, lockFree := true, wpc := .outside,
    pending := initShared, published := [initShared], obs := [] }

/-- Atomic actions: the writer acquiring the lock with cycle result `p`,
its three field writes, its release (completing the publication), and the
three lock-protected getters. -/
inductive Act where
  | wBegin (p : Shared)
  | wCount
  | wFrame
  | wDets
  | wEnd
  | rCount
  | rFrame
  | rDets
deriving DecidableEq, Repr

/-- Execute one action when it is enabled. -/
def exec (sys : CSys) : Act → Option CSys
  | .wBegin p =>
    if sys.lockFree ∧ sys.wpc = .outside then
      some { sys with lockFree := false, pending := p, wpc := .atCount }
    else none
  | .wCount =>
    if sys.wpc = .atCount then
      some { sys with
             mem := { sys.mem with latest_count := sys.pending.latest_count },
             wpc := .atFrame }
    else none
  | .wFrame =>
    if sys.wpc = .atFrame then
      some { sys with
             mem := { sys.mem with latest_frame := sys.pending.latest_frame },
             wpc := .atDets }
    else none
  | .wDets =>
    if sys.wpc = .atDets then
      some { sys with
             mem := { sys.mem with latest_detections := sys.pending.latest_detections },
             wpc := .atEnd }
    else none
  | .wEnd =>
    if sys.wpc = .atEnd then
      some { sys with
             lockFree := true, wpc := .outside,
             published := sys.published ++ [sys.pending] }
    else none
  | .rCount =>
    if sys.lockFree then
      some { sys with obs := sys.obs ++ [.count sys.mem.latest_count sys.mem] }
    else none
  | .rFrame =>
    if sys.lockFree then
      some { sys with obs := sys.obs ++ [.frame sys.mem.latest_frame sys.mem] }
    else none
  | .rDets =>
    if sys.lockFree then
      some { sys with obs := sys.obs ++ [.dets sys.mem.latest_detections sys.mem] }
    else none

/-- Execute a whole trace (an arbitrary interleaving). -/
def execTrace (sys : CSys) : List Act → Option CSys
  | [] => some sys
  | a :: t =>
    match exec sys a with
    | none => none
    | some sys2 => execTrace sys2 t

/-! ### Concrete devices, environments, candidates and traces

Named inputs used by the counterexamples and witnesses below. -/

/-- A non-summary test world used by concrete instantiations below. -/
def world50 : DeviceWorld where
  opens i := i == 0
  readOk _ := true
  urlOpens _ := false

/-- A concrete cloud-mode environment. -/
def cloudEnv : CycleEnv where
  cloudFlag := true
  cvAvail := true
  world := world50
  src := .index 0
  readResult := none
  detectRaises := false
  modelLoaded := false
  reloadOk := false
  forward := .error ()
  threshold := 0
  fps := 30

/-- A candidate whose class slot is NaN and whose confidence passes the
threshold: `int()` on it raises, so candidate processing raises. -/
def nanClassCand : Candidate :=
  { classSlot := .nan, confidence := .fin 1,
    b0 := .fin 0, b1 := .fin 0, b2 := .fin 0, b3 := .fin 0 }

/-- A small test frame. -/
def frame100 : Frame := { height := 100, width := 100 }

/-- A candidate with class index -6 and confidence 1 (above threshold 0). -/
def negIdxCand : Candidate :=
  { classSlot := .fin (-6), confidence := .fin 1,
    b0 := .fin 0, b1 := .fin 0, b2 := .fin 0, b3 := .fin 0 }

/-- A world in which no camera device opens. -/
def worldNone : DeviceWorld where
  opens _ := false
  readOk _ := false
  urlOpens _ := false

/-- An environment whose camera cannot be opened. -/
def openFailEnv : CycleEnv where
  cloudFlag := false
  cvAvail := true
  world := worldNone
  src := .index 5
  readResult := none
  detectRaises := false
  modelLoaded := false
  reloadOk := false
  forward := .error ()
  threshold := 0
  fps := 30

/-- An environment whose opened camera fails the frame read. -/
def readFailEnv : CycleEnv where
  cloudFlag := false
  cvAvail := true
  world := world50
  src := .index 0
  readResult := none
  detectRaises := false
  modelLoaded := false
  reloadOk := false
  forward := .error ()
  threshold := 0
  fps := 30

/-- An environment in which the capture succeeds and the forward pass
raises (an InferenceFailure cycle): `forward = .error ()`. -/
def fwdErrEnv : CycleEnv where
  cloudFlag := false
  cvAvail := true
  world := world50
  src := .index 0
  readResult := some frame100
  detectRaises := false
  modelLoaded := true
  reloadOk := true
  forward := .error ()
  threshold := 0
  fps := 30

/-- A previously published state with a nonzero count. -/
def prevState : Shared :=
  { latest_count := 3, latest_frame := some frame100,
    latest_detections := [{ confidence := .fin 1, bbox := ⟨1, 1, 2, 2⟩ }] }

/-- A candidate whose confidence exceeds 1 and whose box has finite first
corner but NaN second corner. -/
def wildCand : Candidate :=
  { classSlot := .fin 15, confidence := .fin 2,
    b0 := .fin 1, b1 := .fin 1, b2 := .nan, b3 := .nan }

/-- The class-filter condition of detect.py lines 93-95 as a boolean:
`int()` succeeds on the class slot, the index is below `len(CLASSES)`, and
the (Python-indexed) lookup yields "person"; false when `int()` or the
lookup would raise. -/
def classMapsToPerson (v : FVal) : Bool :=
  match v.toIntTrunc with
  | .error _ => false
  | .ok idx =>
    decide (idx < (CLASSES.length : Int)) &&
      match pyGet CLASSES idx with
      | .ok cls => cls == "person"
      | .error _ => false

/-- A person-class candidate with the given confidence and a zero box. -/
def candConf (q : ℚ) : Candidate :=
  { classSlot := .fin 15, confidence := .fin q,
    b0 := .fin 0, b1 := .fin 0, b2 := .fin 0, b3 := .fin 0 }

/-- The memory snapshot recorded with an observation. -/
def Obs.snap : Obs → Shared
  | .count _ s => s
  | .frame _ s => s
  | .dets _ s => s

/-- A getter returned exactly the corresponding field of its snapshot. -/
def obsMatches : Obs → Prop
  | .count v s => v = s.latest_count
  | .frame v s => v = s.latest_frame
  | .dets v s => v = s.latest_detections

/-- Invariant of the lock discipline: the lock free means the writer is
outside its critical section; outside the critical section the memory is a
complete publication; inside it the already-written fields agree with the
pending cycle; and every observation so far is a faithful read of a
complete publication. -/
def csInv (sys : CSys) : Prop :=
  (sys.lockFree = true → sys.wpc = .outside)
  ∧ (sys.wpc = .outside → sys.mem ∈ sys.published)
  ∧ (sys.wpc = .atFrame → sys.mem.latest_count = sys.pending.latest_count)
  ∧ (sys.wpc = .atDets → sys.mem.latest_count = sys.pending.latest_count
      ∧ sys.mem.latest_frame = sys.pending.latest_frame)
  ∧ (sys.wpc = .atEnd → sys.mem = sys.pending)
  ∧ (∀ o ∈ sys.obs, obsMatches o ∧ o.snap ∈ sys.published)

/-- The frame and detections used by the concrete C5 interleaving. -/
def frameA : Frame := { height := 480, width := 640 }

/-- A concrete detection. -/
def detA : Detection := { confidence := .fin 1, bbox := ⟨10, 10, 20, 20⟩ }

/-- Cycle A's publication: count 3, three detections. -/
def pubA : Shared := ⟨3, some frameA, [detA, detA, detA]⟩

/-- Cycle B's publication: count 0, no detections. -/
def pubB : Shared := ⟨0, some frameA, []⟩

/-- The interleaving: the worker publishes cycle A; a reader calls
`get_count` (sees 3); the worker publishes cycle B; the same reader calls
`get_detections` (sees `[]`) — exactly the read pattern of the service
layer (app.py lines 54-55). -/
def mixTrace : List Act :=
  [.wBegin pubA, .wCount, .wFrame, .wDets, .wEnd, .rCount,
   .wBegin pubB, .wCount, .wFrame, .wDets, .wEnd, .rDets]

/-- The system state after `mixTrace`. -/
def mixFinal : CSys :=
  { mem := pubB, lockFree := true, wpc := .outside, pending := pubB,
    published := [initShared, pubA, pubB],
    obs := [.count 3 pubA, .dets [] pubB] }

/-! ### Helper lemmas -/

/-- `tryIndices` succeeds exactly at the first candidate index that both
opens and passes the test read, as located by `List.find?`. -/
theorem tryIndices_spec (world : DeviceWorld) (l : List Int) :
    ∀ cap : CapState,
      (match l.find? (fun i => world.opens i && world.readOk i) with
       | some j => tryIndices world l cap = (true, .cap true (.index j))
       | none => (tryIndices world l cap).1 = false) := by
  induction l with
  | nil => intro cap; simp [tryIndices]
  | cons i rest ih =>
    intro cap
    by_cases h1 : world.opens i = true
    · by_cases h2 : world.readOk i = true
      · simp [List.find?, h1, h2, tryIndices]
      · have h2' : world.readOk i = false := by
          cases hr : world.readOk i
          · rfl
          · exact absurd hr h2
        simpa [List.find?, h1, h2', tryIndices] using
          ih (.cap false (.index i))
    · have h1' : world.opens i = false := by
        cases hr : world.opens i
        · rfl
        · exact absurd hr h1
      simpa [List.find?, h1', tryIndices] using ih (.cap false (.index i))

/-! ### C7: camera initialization fallback order -/

/-- C7. When the identifier parses as an integer `n`, `initialize_camera`
tries `[n, 0, 1, 2]` in order and succeeds with the first index that both
opens and yields a readable test frame (the `List.find?` of that list);
when no candidate qualifies it fails; when the identifier is a path/URL it
is opened directly and success is exactly the device's opened report. -/
theorem initialize_camera_fallback_spec (world : DeviceWorld) (n : Int)
    (u : String) (cap : CapState) (hcap : cap.isOpened = false) :
    (match [n, 0, 1, 2].find? (fun i => world.opens i && world.readOk i) with
     | some j =>
       initialize_camera false world (.index n) cap = (true, .cap true (.index j))
     | none => (initialize_camera false world (.index n) cap).1 = false)
    ∧ ((initialize_camera false world (.index n) cap).1 = true ↔
        ∃ i ∈ ([n, 0, 1, 2] : List Int),
          world.opens i = true ∧ world.readOk i = true)
    ∧ (initialize_camera false world (.url u) cap).1 = world.urlOpens u := by
  have hmain := tryIndices_spec world [n, 0, 1, 2] cap
  have hini : initialize_camera false world (.index n) cap
      = tryIndices world [n, 0, 1, 2] cap := by
    unfold initialize_camera
    simp [hcap]
  refine ⟨?_, ?_, ?_⟩
  · rw [hini]; exact hmain
  · rw [hini]
    rcases hfind : [n, 0, 1, 2].find? (fun i => world.opens i && world.readOk i)
      with _ | j
    · rw [hfind] at hmain
      rw [List.find?_eq_none] at hfind
      constructor
      · intro h1; rw [hmain] at h1; cases h1
      · rintro ⟨i, hi, ho, hr⟩
        exact absurd (by simp [ho, hr]) (hfind i hi)
    · rw [hfind] at hmain
      have hj := List.find?_some hfind
      have hjmem := List.mem_of_find?_eq_some hfind
      simp only [Bool.and_eq_true] at hj
      constructor
      · intro _; exact ⟨j, hjmem, hj.1, hj.2⟩
      · intro _; rw [hmain]
  · unfold initialize_camera
    simp [hcap]

/-- Witness for C7, the spec's own example: identifier `"5"` with device 5
unavailable and device 0 working opens at index 0. -/
theorem initialize_camera_fallback_spec_witness :
    initialize_camera false world50 (.index 5) .noCap
      = (true, .cap true (.index 0))
    ∧ (initialize_camera false world50 (.url "rtsp://x") .noCap).1 = false :=
  ⟨(initialize_camera_fallback_spec world50 5 "rtsp://x" .noCap rfl).1,
   (initialize_camera_fallback_spec world50 5 "rtsp://x" .noCap rfl).2.2⟩

/-! ### C9: degraded/mock (cloud) mode -/

/-- C9. In cloud mode every loop iteration publishes count 0, an empty
detection list and the fixed 480x640 placeholder frame, leaves the capture
handle untouched, and sleeps 1 second. The right-hand side mentions none
of the environment's camera or model fields (`world`, `src`, `readResult`,
`modelLoaded`, `reloadOk`, `forward`), so the cycle touches no camera
hardware and runs no inference. -/
theorem cloud_mode_cycle_spec (env : CycleEnv) (cap : CapState) (s : Shared)
    (h : env.cloud = true) :
    runCaptureStep false env cap s
      = .continued cap
          { latest_count := 0, latest_frame := some (mockFrame env.cvAvail),
            latest_detections := [] } 1
    ∧ (mockFrame env.cvAvail).height = 480
    ∧ (mockFrame env.cvAvail).width = 640 := by
  refine ⟨?_, rfl, rfl⟩
  unfold runCaptureStep
  simp [h]

/-- Witness for C9 at a concrete cloud-mode environment. -/
theorem cloud_mode_cycle_spec_witness :
    runCaptureStep false cloudEnv .noCap initShared
      = .continued .noCap
          { latest_count := 0, latest_frame := some (mockFrame cloudEnv.cvAvail),
            latest_detections := [] } 1
    ∧ (mockFrame cloudEnv.cvAvail).height = 480
    ∧ (mockFrame cloudEnv.cvAvail).width = 640 :=
  cloud_mode_cycle_spec cloudEnv .noCap initShared rfl

/-! ### C4: detect() is fail-soft -/

/-- C4. `detect_people` is fail-soft: when the model is not loaded and
reloading fails, when blob construction / the forward pass raises, and
when candidate processing raises, it returns `(0, [], frame)` with the
original frame. The embedding is a total function, so no exception
propagates to the caller: every input is mapped to a result, and each
failure input is mapped to the zero result. -/
theorem detect_people_failsoft (frame : Frame) (draw : Bool) (t : ℚ)
    (ml rok : Bool) (fwd : Except Unit (List Candidate))
    (cands : List Candidate) :
    detect_people frame draw t false false fwd = (0, [], frame)
    ∧ detect_people frame draw t ml rok (.error ()) = (0, [], frame)
    ∧ (processAll frame.width frame.height t draw (0, [], frame) cands
          = .error () →
        detect_people frame draw t ml rok (.ok cands) = (0, [], frame)) := by
  refine ⟨rfl, ?_, ?_⟩
  · unfold detect_people
    split
    · rfl
    · rfl
  · intro hproc
    unfold detect_people
    split
    · rfl
    · simp only [hproc]

/-- Witness for C4: the three fail-soft cases at concrete inputs,
including a candidate list whose processing raises. -/
theorem detect_people_failsoft_witness :
    detect_people frame100 false 0 false false (.ok []) = (0, [], frame100)
    ∧ detect_people frame100 false 0 true true (.error ()) = (0, [], frame100)
    ∧ detect_people frame100 false 0 true true (.ok [nanClassCand])
        = (0, [], frame100) := by
  have h := detect_people_failsoft frame100 false 0 true true
    (.error ()) [nanClassCand]
  exact ⟨(detect_people_failsoft frame100 false 0 false false (.ok [])
      [nanClassCand]).1,
    h.2.1, h.2.2 (by decide)⟩

/-- Clamping 0 into `[0, bound-1]` yields 0 for any bound. -/
theorem clipCoord_zero (b : Nat) : clipCoord b 0 = 0 := by
  unfold clipCoord
  have h : max 0 (min ((b : ℚ) - 1) 0) = 0 := by
    rcases le_total ((b : ℚ) - 1) 0 with h | h
    · rw [min_eq_left h]
      exact max_eq_left h
    · rw [min_eq_right h]
      exact max_self 0
  rw [h, Int.floor_zero]
  rfl

/-! ### C10: negative class indices are looked up from the end -/

/-- C10. The guard only checks `idx < len(CLASSES)`, so a negative class
index is looked up with Python's from-the-end indexing: `CLASSES[-6]` is
"person", and a candidate with class slot -6 and confidence above the
threshold is counted as a person with a Detection appended, rather than
rejected. -/
theorem negative_class_index_accepted :
    pyGet CLASSES (-6) = .ok "person"
    ∧ (detect_people frame100 false 0 true true (.ok [negIdxCand])).1 = 1
    ∧ (detect_people frame100 false 0 true true (.ok [negIdxCand])).2.1
        = [{ confidence := .fin 1, bbox := { x1 := 0, y1 := 0, x2 := 0, y2 := 0 } }] := by
  refine ⟨by decide, by decide, ?_⟩
  have h0 : ∀ n : Nat, ((FVal.fin 0).scaleN n).toNum0 = 0 := by
    intro n; simp [FVal.scaleN, FVal.toNum0]
  norm_num [detect_people, processAll, processCandidate, negIdxCand, frame100,
    FVal.gtQ, FVal.toIntTrunc, ratTrunc, pyGet, CLASSES, h0, clipCoord_zero,
    Int.ceil_neg, Int.floor_ofNat]
  decide

/-! ### C6: the capture loop runs until and only until stop -/

/-- With the stop signal clear, no branch of the loop body exits: every
iteration continues (with a backoff or pacing sleep). -/
theorem runCaptureStep_not_exited (env : CycleEnv) (cap : CapState)
    (s : Shared) : runCaptureStep false env cap s ≠ .exited := by
  intro h
  unfold runCaptureStep at h
  iterate 10 (all_goals try split at h)
  all_goals try simp_all
  all_goals revert h
  all_goals split <;> intro h <;> cases h

/-- With the stop signal never set, any number of loop iterations leaves
the loop alive. -/
theorem loopRunFrom_isSome (stops : Nat → Bool) (envs : Nat → CycleEnv)
    (hstops : ∀ k, stops k = false) :
    ∀ (n i : Nat) (cap : CapState) (s : Shared),
      (loopRunFrom stops envs i n cap s).isSome = true := by
  intro n
  induction n with
  | zero => intro i cap s; simp [loopRunFrom]
  | succ n ih =>
    intro i cap s
    simp only [loopRunFrom]
    rcases hstep : runCaptureStep (stops i) (envs i) cap s with _ | ⟨cap2, s2, q⟩
    · rw [hstops i] at hstep
      exact absurd hstep (runCaptureStep_not_exited _ _ _)
    · simpa using ih (i + 1) cap2 s2

/-- C6. The background loop iterates until and only until the stop signal:
with the stop signal never set, any number of iterations leaves the loop
alive; reading the stop signal as set exits; exiting implies the signal was
set; a source-open failure leads to a 1-second backoff with the shared
state untouched and the loop continuing; a frame-read failure releases the
capture (forcing re-open next cycle) and backs off the same way. -/
theorem capture_loop_runs_until_stop (stops : Nat → Bool)
    (envs : Nat → CycleEnv) (env : CycleEnv) (cap : CapState) (s : Shared)
    (i n : Nat) (hstops : ∀ k, stops k = false) :
    (loopRunFrom stops envs i n cap s).isSome = true
    ∧ runCaptureStep true env cap s = .exited
    ∧ (∀ b : Bool, runCaptureStep b env cap s = .exited → b = true)
    ∧ (env.cloud = false → cap.isOpened = false →
        (initialize_camera env.cloud env.world env.src cap).1 = false →
        runCaptureStep false env cap s
          = .continued (initialize_camera env.cloud env.world env.src cap).2 s 1)
    ∧ (env.cloud = false → cap.isOpened = true → env.readResult = none →
        runCaptureStep false env cap s = .continued .noCap s 1) := by
  refine ⟨loopRunFrom_isSome stops envs hstops n i cap s, rfl, ?_, ?_, ?_⟩
  · intro b hb
    cases b
    · exact absurd hb (runCaptureStep_not_exited _ _ _)
    · rfl
  · intro hc hcap hini
    rw [hc] at hini ⊢
    unfold runCaptureStep
    simp [hc, hcap, hini]
  · intro hc hcap hread
    unfold runCaptureStep
    simp [hc, hcap, hread]

/-- Witness for C6 at concrete inputs: five idle iterations stay alive,
stop exits, open failure backs off with state intact, read failure
releases the capture and backs off with state intact. -/
theorem capture_loop_runs_until_stop_witness :
    (loopRunFrom (fun _ => false) (fun _ => openFailEnv) 0 5 .noCap
        initShared).isSome = true
    ∧ runCaptureStep true openFailEnv .noCap initShared = .exited
    ∧ runCaptureStep false openFailEnv .noCap initShared
        = .continued (initialize_camera openFailEnv.cloud openFailEnv.world
            openFailEnv.src .noCap).2 initShared 1
    ∧ runCaptureStep false readFailEnv (.cap true (.index 0)) initShared
        = .continued .noCap initShared 1 := by
  have h1 := capture_loop_runs_until_stop (fun _ => false)
    (fun _ => openFailEnv) openFailEnv .noCap initShared 0 5 (fun _ => rfl)
  have h2 := capture_loop_runs_until_stop (fun _ => false)
    (fun _ => openFailEnv) readFailEnv (.cap true (.index 0)) initShared 0 5
    (fun _ => rfl)
  exact ⟨h1.1, h1.2.1, h1.2.2.2.1 rfl rfl (by decide),
    h2.2.2.2.2 rfl rfl rfl⟩

/-! ### C1: a forward-pass exception does NOT leave the state intact -/

/-- C1 counterexample. On a cycle whose forward pass raises, the worker
does not leave the previously published state intact: `detect_people`
itself catches the exception and returns the zero result, which the worker
then publishes, overwriting every field of the shared state (count 3
becomes 0, the detections list becomes empty). -/
theorem forward_error_overwrites_state :
    runCaptureStep false fwdErrEnv (.cap true (.index 0)) prevState
      = .continued (.cap true (.index 0))
          { latest_count := 0, latest_frame := some frame100,
            latest_detections := [] } (1 / fwdErrEnv.fps)
    ∧ ({ latest_count := 0, latest_frame := some frame100,
         latest_detections := [] } : Shared) ≠ prevState := by
  exact ⟨rfl, by decide⟩

/-- C1 amended. An exception raised during the forward pass is caught
inside the detection engine (detect.py line 133), which converts it to the
zero result; the worker then publishes count 0, the unannotated input
frame and an empty detection list, overwriting the previous state, and the
loop continues. The worker-level `except` (camera.py line 144) leaves the
previous state intact only in the case where the `detect_people` call
itself raises into the worker. -/
theorem forward_error_cycle_behavior (env : CycleEnv) (cap : CapState)
    (s : Shared) (fr : Frame) (hc : env.cloud = false)
    (hcap : cap.isOpened = true) (hr : env.readResult = some fr) :
    (env.detectRaises = false → env.modelLoaded = true →
      env.forward = .error () →
      runCaptureStep false env cap s
        = .continued cap
            { latest_count := 0, latest_frame := some fr,
              latest_detections := [] } (1 / env.fps))
    ∧ (env.detectRaises = true →
      runCaptureStep false env cap s = .continued cap s (1 / env.fps)) := by
  constructor
  · intro hd hm hf
    unfold runCaptureStep
    simp [hc, hcap, hr, hd, detect_people, hm, hf]
  · intro hd
    unfold runCaptureStep
    simp [hc, hcap, hr, hd]

/-- Witness for C1's amended theorem at the counterexample's environment. -/
theorem forward_error_cycle_behavior_witness :
    runCaptureStep false fwdErrEnv (.cap true (.index 0)) prevState
      = .continued (.cap true (.index 0))
          { latest_count := 0, latest_frame := some frame100,
            latest_detections := [] } (1 / fwdErrEnv.fps) :=
  (forward_error_cycle_behavior fwdErrEnv (.cap true (.index 0)) prevState
    frame100 rfl rfl rfl).1 rfl rfl rfl

/-! ### C2: bounding-box sanitization -/

/-- Each clipped coordinate is at most `bound - 1`. -/
theorem clipCoord_le (b : Nat) (q : ℚ) (hb : 1 ≤ b) :
    clipCoord b q ≤ b - 1 := by
  unfold clipCoord
  have hcast : ((b - 1 : ℕ) : ℚ) = (b : ℚ) - 1 := by
    rw [Nat.cast_sub hb, Nat.cast_one]
  have hb' : (1 : ℚ) ≤ (b : ℚ) := by exact_mod_cast hb
  have h1 : max 0 (min ((b : ℚ) - 1) q) ≤ ((b - 1 : ℕ) : ℚ) := by
    rw [hcast]
    exact max_le (by linarith) (min_le_left _ _)
  have h2 := Int.floor_mono h1
  rw [Int.floor_natCast] at h2
  exact Int.toNat_le.mpr h2

/-- A coordinate at or above the upper bound clips to exactly `bound - 1`. -/
theorem clipCoord_top (b : Nat) (q : ℚ) (hb : 1 ≤ b)
    (hq : (b : ℚ) - 1 ≤ q) : clipCoord b q = b - 1 := by
  unfold clipCoord
  have hb' : (1 : ℚ) ≤ (b : ℚ) := by exact_mod_cast hb
  rw [min_eq_left hq, max_eq_right (by linarith)]
  have hcast : ((b : ℚ) - 1) = ((b - 1 : ℕ) : ℚ) := by
    rw [Nat.cast_sub hb, Nat.cast_one]
  rw [hcast, Int.floor_natCast]
  exact Int.toNat_natCast _

/-- C2 counterexample. On a 100x100 frame, a person candidate with raw box
`(1, 1, NaN, NaN)` and confidence 2 produces the detection
`{confidence 2, bbox (99, 99, 0, 0)}`: the NaN corners are zeroed before
clipping while the finite corners clip to 99, so `x1 ≤ x2` and `y1 ≤ y2`
fail, and the stored confidence exceeds 1. -/
theorem bbox_claim_counterexample :
    (detect_people frame100 false 0 true true (.ok [wildCand])).2.1
      = [{ confidence := .fin 2, bbox := { x1 := 99, y1 := 99, x2 := 0, y2 := 0 } }]
    ∧ ¬((99 : Nat) ≤ 0)
    ∧ ¬((2 : ℚ) ≤ 1) := by
  refine ⟨?_, by decide, by norm_num⟩
  have hc1 : clipCoord 100 (((FVal.fin 1).scaleN 100).toNum0) = 99 := by
    show clipCoord 100 ((1 : ℚ) * ((100 : ℕ) : ℚ)) = 99
    exact clipCoord_top 100 _ (by norm_num) (by push_cast; norm_num)
  have hc2 : clipCoord 100 ((FVal.nan.scaleN 100).toNum0) = 0 := by
    show clipCoord 100 0 = 0
    exact clipCoord_zero 100
  norm_num [detect_people, processAll, processCandidate, wildCand, frame100,
    FVal.gtQ, FVal.toIntTrunc, ratTrunc, pyGet, CLASSES, hc1, hc2,
    Int.floor_ofNat]
  decide

/-- Every detection produced by the candidate loop has each bounding-box
coordinate independently clipped into frame bounds, and a confidence that
passed the strict threshold comparison. -/
theorem processAll_detections_spec (w h : Nat) (t : ℚ) (draw : Bool)
    (hw : 1 ≤ w) (hh : 1 ≤ h) :
    ∀ (cs : List Candidate) (acc out : Nat × List Detection × Frame),
      processAll w h t draw acc cs = .ok out →
      (∀ d ∈ acc.2.1, d.bbox.x1 ≤ w - 1 ∧ d.bbox.x2 ≤ w - 1
        ∧ d.bbox.y1 ≤ h - 1 ∧ d.bbox.y2 ≤ h - 1
        ∧ d.confidence.gtQ t = true) →
      ∀ d ∈ out.2.1, d.bbox.x1 ≤ w - 1 ∧ d.bbox.x2 ≤ w - 1
        ∧ d.bbox.y1 ≤ h - 1 ∧ d.bbox.y2 ≤ h - 1
        ∧ d.confidence.gtQ t = true := by
  intro cs
  induction cs with
  | nil =>
    intro acc out hout hacc
    cases hout
    exact hacc
  | cons c cs ih =>
    intro acc out hout hacc
    rw [processAll] at hout
    rcases hpc : processCandidate w h t draw acc c with e | acc2
    · rw [hpc] at hout; cases hout
    · rw [hpc] at hout
      refine ih acc2 out hout ?_
      unfold processCandidate at hpc
      by_cases hg : c.confidence.gtQ t = true
      · rw [if_pos hg] at hpc
        iterate 8 (all_goals try split at hpc)
        all_goals cases hpc
        all_goals try exact hacc
        all_goals intro d hd
        all_goals rcases List.mem_append.mp hd with hold | hnew
        all_goals try exact hacc d hold
        all_goals rcases List.mem_singleton.mp hnew with rfl
        all_goals exact ⟨clipCoord_le w _ hw, clipCoord_le w _ hw,
          clipCoord_le h _ hh, clipCoord_le h _ hh, hg⟩
      · rw [if_neg hg] at hpc
        cases hpc
        exact hacc

/-- C2 amended. Each coordinate of a produced bounding box is clipped
independently into the frame: `0 ≤ x1 ≤ width-1`, `0 ≤ x2 ≤ width-1`,
`0 ≤ y1 ≤ height-1`, `0 ≤ y2 ≤ height-1` (the coordinates are naturals,
so the lower bounds are inherent), with non-finite raw values replaced by
0 before clipping; the stored confidence passed the strict comparison
against the threshold (so it is NaN-free and positive when the threshold
is at least 0), but `x1 ≤ x2`, `y1 ≤ y2` and `confidence ≤ 1` are not
guaranteed. -/
theorem detect_people_coord_bounds (frame : Frame) (draw : Bool) (t : ℚ)
    (ml rok : Bool) (fwd : Except Unit (List Candidate))
    (hw : 1 ≤ frame.width) (hh : 1 ≤ frame.height) :
    ∀ d ∈ (detect_people frame draw t ml rok fwd).2.1,
      d.bbox.x1 ≤ frame.width - 1 ∧ d.bbox.x2 ≤ frame.width - 1
      ∧ d.bbox.y1 ≤ frame.height - 1 ∧ d.bbox.y2 ≤ frame.height - 1
      ∧ d.confidence.gtQ t = true := by
  intro d hd
  unfold detect_people at hd
  split at hd
  · simp at hd
  · rcases fwd with e | cands
    · simp at hd
    · rcases hout : processAll frame.width frame.height t draw
        (0, [], frame) cands with e | out
      · simp only [hout] at hd
        simp at hd
      · simp only [hout] at hd
        exact processAll_detections_spec frame.width frame.height t draw
          hw hh cands _ out hout (by simp) d hd

/-- Witness for C2's amended theorem: the wild candidate's detection has
every coordinate within the 100x100 frame bounds. -/
theorem detect_people_coord_bounds_witness :
    (1 ≤ frame100.width) ∧ (1 ≤ frame100.height)
    ∧ (∀ d ∈ (detect_people frame100 false 0 true true (.ok [wildCand])).2.1,
        d.bbox.x1 ≤ frame100.width - 1 ∧ d.bbox.x2 ≤ frame100.width - 1
        ∧ d.bbox.y1 ≤ frame100.height - 1 ∧ d.bbox.y2 ≤ frame100.height - 1
        ∧ d.confidence.gtQ 0 = true) :=
  ⟨by decide, by decide,
   detect_people_coord_bounds frame100 false 0 true true (.ok [wildCand])
     (by decide) (by decide)⟩

/-! ### C8: the acceptance condition -/

/-- C8. A single candidate is accepted (count 1 and exactly one Detection
appended) iff its confidence is strictly greater than the threshold and
its class index maps to "person"; in particular at threshold 0.5 a
candidate at 0.49 is excluded, one at 0.51 is included, and one exactly at
0.5 is skipped (the comparison is strict). -/
theorem candidate_accept_iff :
    (∀ (frame : Frame) (t : ℚ) (c : Candidate),
      (detect_people frame false t true true (.ok [c])).1
        = (if c.confidence.gtQ t && classMapsToPerson c.classSlot
           then 1 else 0)
      ∧ (detect_people frame false t true true (.ok [c])).2.1.length
        = (detect_people frame false t true true (.ok [c])).1)
    ∧ (detect_people frame100 false (1 / 2) true true
        (.ok [candConf (49 / 100)])).1 = 0
    ∧ (detect_people frame100 false (1 / 2) true true
        (.ok [candConf (51 / 100)])).1 = 1
    ∧ (detect_people frame100 false (1 / 2) true true
        (.ok [candConf (1 / 2)])).1 = 0 := by
  have hcount : ∀ (frame : Frame) (t : ℚ) (c : Candidate),
      (detect_people frame false t true true (.ok [c])).1
        = (if c.confidence.gtQ t && classMapsToPerson c.classSlot
           then 1 else 0) := by
    intro frame t c
    unfold detect_people
    rw [if_neg (by simp)]
    simp only [processAll, processCandidate, classMapsToPerson]
    by_cases hg : c.confidence.gtQ t = true
    · simp only [hg, if_true, Bool.true_and]
      rcases hti : c.classSlot.toIntTrunc with e | idx
      · simp [hti]
      · simp only [hti]
        by_cases hlt : idx < (CLASSES.length : Int)
        · simp only [hlt, if_true, decide_eq_true_eq, Bool.true_and]
          cases hget : pyGet CLASSES idx with
          | error e => simp [hget]
          | ok cls => by_cases hcls : cls = "person" <;> simp [hget, hcls]
        · simp [hlt]
    · simp [hg]
  have hlen : ∀ (frame : Frame) (t : ℚ) (c : Candidate),
      (detect_people frame false t true true (.ok [c])).2.1.length
        = (detect_people frame false t true true (.ok [c])).1 := by
    intro frame t c
    unfold detect_people
    rw [if_neg (by simp)]
    simp only [processAll, processCandidate]
    by_cases hg : c.confidence.gtQ t = true
    · simp only [hg, if_true]
      rcases hti : c.classSlot.toIntTrunc with e | idx
      · simp [hti]
      · simp only [hti]
        by_cases hlt : idx < (CLASSES.length : Int)
        · simp only [hlt, if_true]
          cases hget : pyGet CLASSES idx with
          | error e => simp [hget]
          | ok cls => by_cases hcls : cls = "person" <;> simp [hget, hcls]
        · simp [hlt]
    · simp [hg]
  refine ⟨fun frame t c => ⟨hcount frame t c, hlen frame t c⟩, ?_, ?_, ?_⟩
  · norm_num [detect_people, processAll, processCandidate, candConf,
      FVal.gtQ]
  · norm_num [detect_people, processAll, processCandidate, candConf,
      FVal.gtQ, FVal.toIntTrunc, ratTrunc, pyGet, CLASSES, Int.floor_ofNat]
    decide
  · norm_num [detect_people, processAll, processCandidate, candConf,
      FVal.gtQ]

/-- Witness for C8's general characterization at a concrete accepted
candidate. -/
theorem candidate_accept_iff_witness :
    (detect_people frame100 false 0 true true (.ok [wildCand])).1
      = (if wildCand.confidence.gtQ 0 && classMapsToPerson wildCand.classSlot
         then 1 else 0)
    ∧ (detect_people frame100 false 0 true true (.ok [wildCand])).2.1.length
      = (detect_people frame100 false 0 true true (.ok [wildCand])).1 :=
  candidate_accept_iff.1 frame100 0 wildCand

/-! ### C3: the frame-stream generator -/

/-- C3. One iteration of the stream generator, for every state of the
underlying source, yields exactly one of three continuing actions — so the
generator (a total function into actions that all continue the loop) never
terminates on its own and never raises: before any frame is published it
emits nothing and polls at 0.1 s, a failed encode skips the iteration the
same way, and a successful encode emits exactly one multipart chunk and
paces at the configured rate; moreover a run of any length over states
with no published frame emits no chunks at all. -/
theorem generate_frames_spec (run : Bool) (s : Shared)
    (encode : Frame → Option String) (fps : ℚ)
    (runFlags : Nat → Bool) (shareds : Nat → Shared) (n : Nat) :
    (s.latest_frame = none →
      streamStep run s encode fps = (!run, .waitNoFrame (1 / 10)))
    ∧ (∀ f, s.latest_frame = some f → encode f = none →
      streamStep run s encode fps = (!run, .waitEncodeFail (1 / 10)))
    ∧ (∀ f body, s.latest_frame = some f → encode f = some body →
      streamStep run s encode fps
        = (!run, .emit (streamChunk body) (1 / fps)))
    ∧ ((∀ k, k < n → (shareds k).latest_frame = none) →
      streamRun runFlags shareds encode fps n = []) := by
  refine ⟨?_, ?_, ?_, ?_⟩
  · intro h
    unfold streamStep
    rw [h]
  · intro f hf he
    unfold streamStep
    rw [hf]
    simp only [he]
  · intro f body hf he
    unfold streamStep
    rw [hf]
    simp only [he]
  · induction n with
    | zero => intro _; rfl
    | succ n ih =>
      intro hnone
      simp only [streamRun]
      rw [ih (fun k hk => hnone k (Nat.lt_succ_of_lt hk))]
      have h2 := hnone n (Nat.lt_succ_self n)
      simp [streamStep, h2, streamEmits]

/-- Witness for C3: with no frame ever published, a single iteration
waits (emitting nothing, polling at 0.1 s) and a 5-iteration run emits no
chunk. -/
theorem generate_frames_spec_witness :
    streamStep false initShared (fun _ => none) 30
      = (true, .waitNoFrame (1 / 10))
    ∧ streamRun (fun _ => true) (fun _ => initShared) (fun _ => none) 30 5
      = [] :=
  ⟨(generate_frames_spec false initShared (fun _ => none) 30 (fun _ => true)
      (fun _ => initShared) 5).1 rfl,
   (generate_frames_spec false initShared (fun _ => none) 30 (fun _ => true)
      (fun _ => initShared) 5).2.2.2 (fun _ _ => rfl)⟩

/-! ### C5: atomicity of shared-state updates -/

/-- A `Shared` value is determined by its three fields. -/
theorem Shared.eqOfFields (a b : Shared)
    (h1 : a.latest_count = b.latest_count)
    (h2 : a.latest_frame = b.latest_frame)
    (h3 : a.latest_detections = b.latest_detections) : a = b := by
  cases a
  cases b
  simp_all

/-- Every enabled action preserves the lock-discipline invariant. -/
theorem exec_preserves_csInv (sys sys2 : CSys) (a : Act)
    (hinv : csInv sys) (hex : exec sys a = some sys2) : csInv sys2 := by
  obtain ⟨h1, h2, h3, h4, h5, h6⟩ := hinv
  cases a with
  | wBegin p =>
    simp only [exec] at hex
    split at hex
    · cases hex
      exact ⟨by simp_all, by simp, by simp, by simp, by simp,
        fun o ho => h6 o ho⟩
    · cases hex
  | wCount =>
    simp only [exec] at hex
    split at hex
    · rename_i hWpc
      cases hex
      refine ⟨fun hlf => absurd (h1 hlf) (by simp [hWpc]), by simp, ?_,
        by simp, by simp, fun o ho => h6 o ho⟩
      intro _
      rfl
    · cases hex
  | wFrame =>
    simp only [exec] at hex
    split at hex
    · rename_i hWpc
      cases hex
      refine ⟨fun hlf => absurd (h1 hlf) (by simp [hWpc]), by simp, by simp,
        ?_, by simp, fun o ho => h6 o ho⟩
      intro _
      exact ⟨h3 hWpc, rfl⟩
    · cases hex
  | wDets =>
    simp only [exec] at hex
    split at hex
    · rename_i hWpc
      cases hex
      refine ⟨fun hlf => absurd (h1 hlf) (by simp [hWpc]), by simp, by simp,
        by simp, ?_, fun o ho => h6 o ho⟩
      intro _
      exact Shared.eqOfFields _ _ (h4 hWpc).1 (h4 hWpc).2 rfl
    · cases hex
  | wEnd =>
    simp only [exec] at hex
    split at hex
    · rename_i hWpc
      cases hex
      refine ⟨fun _ => rfl, ?_, by simp, by simp, by simp, ?_⟩
      · intro _
        rw [h5 hWpc]
        exact List.mem_append_right _ (List.mem_singleton.mpr rfl)
      · intro o ho
        exact ⟨(h6 o ho).1, List.mem_append_left _ (h6 o ho).2⟩
    · cases hex
  | rCount =>
    simp only [exec] at hex
    split at hex
    · rename_i hlf
      cases hex
      refine ⟨fun _ => h1 hlf, fun hw => h2 hw, fun hw => h3 hw,
        fun hw => h4 hw, fun hw => h5 hw, ?_⟩
      intro o ho
      rcases List.mem_append.mp ho with hold | hnew
      · exact h6 o hold
      · rcases List.mem_singleton.mp hnew with rfl
        exact ⟨rfl, h2 (h1 hlf)⟩
    · cases hex
  | rFrame =>
    simp only [exec] at hex
    split at hex
    · rename_i hlf
      cases hex
      refine ⟨fun _ => h1 hlf, fun hw => h2 hw, fun hw => h3 hw,
        fun hw => h4 hw, fun hw => h5 hw, ?_⟩
      intro o ho
      rcases List.mem_append.mp ho with hold | hnew
      · exact h6 o hold
      · rcases List.mem_singleton.mp hnew with rfl
        exact ⟨rfl, h2 (h1 hlf)⟩
    · cases hex
  | rDets =>
    simp only [exec] at hex
    split at hex
    · rename_i hlf
      cases hex
      refine ⟨fun _ => h1 hlf, fun hw => h2 hw, fun hw => h3 hw,
        fun hw => h4 hw, fun hw => h5 hw, ?_⟩
      intro o ho
      rcases List.mem_append.mp ho with hold | hnew
      · exact h6 o hold
      · rcases List.mem_singleton.mp hnew with rfl
        exact ⟨rfl, h2 (h1 hlf)⟩
    · cases hex

/-- The initial system satisfies the invariant. -/
theorem csInv_init : csInv initCSys := by
  refine ⟨fun _ => rfl, ?_, by simp [initCSys], by simp [initCSys],
    by simp [initCSys], ?_⟩
  · intro _
    simp [initCSys]
  · intro o ho
    simp [initCSys] at ho

/-- Whole traces preserve the invariant. -/
theorem execTrace_preserves_csInv (t : List Act) :
    ∀ sys sys2 : CSys, csInv sys → execTrace sys t = some sys2 →
      csInv sys2 := by
  induction t with
  | nil =>
    intro sys sys2 h he
    cases he
    exact h
  | cons a t ih =>
    intro sys sys2 h he
    rw [execTrace] at he
    rcases hex : exec sys a with _ | sys1
    · rw [hex] at he
      cases he
    · rw [hex] at he
      exact ih sys1 sys2 (exec_preserves_csInv sys sys1 a h hex) he

/-- C5 counterexample. Under the legal interleaving `mixTrace`, a reader
observes count 3 and then detections `[]`, and no published cycle (not
the initial zero state, not cycle A, not cycle B) pairs count 3 with an
empty detections list: a consumer combining the lock-protected getters
observes a count from one cycle paired with detections from another. -/
theorem getter_pair_mixes_cycles :
    execTrace initCSys mixTrace = some mixFinal
    ∧ mixFinal.obs = [.count 3 pubA, .dets [] pubB]
    ∧ ∀ p ∈ mixFinal.published,
        ¬(p.latest_count = 3 ∧ p.latest_detections = []) := by
  refine ⟨by decide, by decide, by decide⟩

/-- C5 amended. The writer's publication of count, frame and detections is
atomic with respect to each individual getter: under every interleaving,
every single lock-protected read observes the field of one completely
published cycle (never a torn, partially-written state). Consistency
across *separate* getter calls does not hold, as the counterexample
shows. -/
theorem single_getter_reads_complete_cycle (t : List Act) (sys : CSys)
    (h : execTrace initCSys t = some sys) :
    ∀ o ∈ sys.obs, obsMatches o ∧ o.snap ∈ sys.published :=
  (execTrace_preserves_csInv t initCSys sys csInv_init h).2.2.2.2.2

/-- Witness for C5's amended theorem on the concrete interleaving: both of
the trace's observations are faithful reads of complete publications. -/
theorem single_getter_reads_complete_cycle_witness :
    (obsMatches (.count 3 pubA) ∧ (Obs.count 3 pubA).snap ∈ mixFinal.published)
    ∧ (obsMatches (.dets [] pubB) ∧ (Obs.dets [] pubB).snap ∈ mixFinal.published) :=
  ⟨single_getter_reads_complete_cycle mixTrace mixFinal (by decide) _ (by decide),
   single_getter_reads_complete_cycle mixTrace mixFinal (by decide) _ (by decide)⟩

end Crowd
